import Mathlib

/-!
# Verification of the OpenSmoker control firmware

Shallow embedding of `src/PlatformIO/src/main.cpp` (an Arduino program for an
RP2040-based meat-smoker controller) and proofs about its control logic.

Modelling conventions:
* Temperatures are C++ `int`s, modelled as `Int`.  The constant
  `temp_buffer = 5.0f` and the fan spread are `float`s in the source, but all
  values compared against them are small integers, for which `float`
  comparison is exact, so they are modelled over `Int`.
* `millis()` returns `unsigned long` (32 bits on the RP2040).  Timestamps are
  modelled as `Nat`, and the C++ unsigned subtraction `a - b` is modelled by
  `ulSub`, which computes the difference modulo `2^32` exactly as the hardware
  does.  Within one `loop()` iteration the source calls `millis()` several
  times; the calls are at most microseconds apart and the embedding uses a
  single per-cycle value `now`.
* One invocation of `loop()` (core 0) becomes the pure step function
  `loopStep` on the global-variable state `SmokerState`.  Inputs sampled
  during a cycle (switch level, the three thermocouple readings after the
  fixed per-channel offsets have been added, and `millis()`) form a
  `CycleInput`.
* The core-1 input handlers `handleEncoder` / `handleButton` act on the
  globals they touch, gathered in `UiState`.
-/

set_option autoImplicit false

namespace OpenSmoker

/-- `2^32`, the modulus of C++ `unsigned long` arithmetic on the RP2040. -/
def UL_MOD : Nat := 4294967296

/-- Unsigned 32-bit subtraction `a - b`, as C++ computes it. -/
def ulSub (a b : Nat) : Nat := (a % UL_MOD + (UL_MOD - b % UL_MOD)) % UL_MOD

/-- `#define EMERGENCY_TEMP 250` -/
def EMERGENCY_TEMP : Int := 250

/-- `#define FAN_CYCLE_TIME 60000` -/
def FAN_CYCLE_TIME : Nat := 60000

/-- `#define FAN_TEMP_DELTA_ON 30` -/
def FAN_TEMP_DELTA_ON : Int := 30

/-- `#define FAN_TEMP_DELTA_OFF 15` -/
def FAN_TEMP_DELTA_OFF : Int := 15

/-- `#define HEATER_CYCLE_TIME 10000` -/
def HEATER_CYCLE_TIME : Nat := 10000

/-- `float temp_buffer = 5.0` (exact on the integer temperatures compared). -/
def temp_buffer : Int := 5

/-- The global variables of core 0 (`main.cpp` lines 100-116).  The two
`digitalWrite` output pins are modelled as the booleans `heater_pin` and
`fan_pin` (`true` = `HIGH`). -/
structure SmokerState where
  system_on : Bool
  system_on_prev : Bool
  error_state : Bool
  heater_on : Bool
  fan_on : Bool
  last_heater_toggle_time : Nat
  last_fan_toggle_time : Nat
  timer_start_time : Nat
  top_temp : Int
  bottom_temp : Int
  meat_temp : Int
  desired_temp : Int
  desired_meat_temp : Int
  heater_pin : Bool
  fan_pin : Bool
deriving Repr, DecidableEq

/-- Initial values of the globals, with the pins driven LOW by `setup()`. -/
def initState : SmokerState :=
  { system_on := false
    system_on_prev := false
    error_state := false
    heater_on := false
    fan_on := false
    last_heater_toggle_time := 0
    last_fan_toggle_time := 0
    timer_start_time := 0
    top_temp := 0
    bottom_temp := 0
    meat_temp := 0
    desired_temp := 230
    desired_meat_temp := 190
    heater_pin := false
    fan_pin := false }

/-- The values core 0 samples during one `loop()` iteration: `switch` is
`!digitalRead(ON_OFF_SWITCH_PIN)`, the `raw` fields are the `int`-cast
thermocouple readings with their per-channel offsets already added
(lines 188-190), and `now` is `millis()`. -/
structure CycleInput where
  switch : Bool
  rawTop : Int
  rawBot : Int
  rawMeat : Int
  now : Nat
deriving Repr, DecidableEq

/-- Lines 192-194: `if (x > 999) x = 999;`. -/
def clampTemp (t : Int) : Int := if 999 < t then 999 else t

/-- Lines 268-287, `controlHeater()`: pull the enclosure target down to the
meat target once the meat is done, then hysteresis with minimum dwell. -/
def controlHeater (s : SmokerState) (now : Nat) : SmokerState :=
  let s1 := if s.desired_meat_temp ≤ s.meat_temp
            then { s with desired_temp := s.desired_meat_temp } else s
  if s1.heater_on = false ∧ s1.top_temp < s1.desired_temp - temp_buffer ∧
      HEATER_CYCLE_TIME ≤ ulSub now s1.last_heater_toggle_time then
    { s1 with heater_pin := true, heater_on := true, last_heater_toggle_time := now }
  else if s1.heater_on = true ∧
      (s1.desired_temp ≤ s1.top_temp ∨ s1.desired_temp ≤ s1.bottom_temp) ∧
      HEATER_CYCLE_TIME ≤ ulSub now s1.last_heater_toggle_time then
    { s1 with heater_pin := false, heater_on := false, last_heater_toggle_time := now }
  else s1

/-- Lines 290-306, `controlFan()`: spread hysteresis with minimum dwell. -/
def controlFan (s : SmokerState) (now : Nat) : SmokerState :=
  let diff : Int := |s.top_temp - s.bottom_temp|
  if s.fan_on = false ∧ FAN_TEMP_DELTA_ON < diff ∧
      FAN_CYCLE_TIME ≤ ulSub now s.last_fan_toggle_time then
    { s with fan_pin := true, fan_on := true, last_fan_toggle_time := now }
  else if s.fan_on = true ∧ diff ≤ FAN_TEMP_DELTA_OFF ∧
      FAN_CYCLE_TIME ≤ ulSub now s.last_fan_toggle_time then
    { s with fan_pin := false, fan_on := false, last_fan_toggle_time := now }
  else s

/-- Lines 176-200 of `loop()`: sample the switch, restart the session timer on
a switch change, read and clamp the three temperatures, and run the emergency
check (which latches `error_state` and clears `system_on`). -/
def readPhase (s : SmokerState) (i : CycleInput) : SmokerState :=
  let s1 := { s with system_on := i.switch }
  let s2 := if s1.system_on ≠ s1.system_on_prev then
              { s1 with
                timer_start_time :=
                  if s1.system_on = true then i.now else s1.timer_start_time
                system_on_prev := s1.system_on }
            else s1
  let s3 := { s2 with
              top_temp := clampTemp i.rawTop
              bottom_temp := clampTemp i.rawBot
              meat_temp := clampTemp i.rawMeat }
  if EMERGENCY_TEMP ≤ s3.top_temp ∨ EMERGENCY_TEMP ≤ s3.bottom_temp ∨
      EMERGENCY_TEMP ≤ s3.meat_temp then
    { s3 with error_state := true, system_on := false }
  else s3

/-- One full iteration of `loop()` (lines 174-222), display output omitted:
after `readPhase`, either both controllers run (system on, no error) or the
forced-off branch drives both outputs LOW and clears both state flags. -/
def loopStep (s : SmokerState) (i : CycleInput) : SmokerState :=
  let s4 := readPhase s i
  if s4.system_on = true ∧ s4.error_state = false then
    controlFan (controlHeater s4 i.now) i.now
  else
    { s4 with heater_pin := false, fan_pin := false,
              heater_on := false, fan_on := false }

/-- Iterate `loop()` over a list of per-cycle inputs. -/
def runLoop (s : SmokerState) : List CycleInput → SmokerState
  | [] => s
  | i :: rest => runLoop (loopStep s i) rest

/-- The core-1 globals touched by `handleEncoder` / `handleButton`
(lines 118-123); `desired_temp` / `desired_meat_temp` are the same globals
core 0 reads. -/
structure UiState where
  encoder_state_last : Nat
  current_setting : Nat
  last_button_press : Nat
  desired_temp : Int
  desired_meat_temp : Int
deriving Repr, DecidableEq

/-- Lines 238-259, `handleEncoder()`: on a rising CLK edge, adjust the
currently selected target by ±2 according to the DT line. -/
def handleEncoder (s : UiState) (clk dt : Nat) : UiState :=
  if clk ≠ s.encoder_state_last ∧ clk = 1 then
    if dt ≠ clk then
      if s.current_setting = 0 then
        { s with desired_temp := s.desired_temp + 2, encoder_state_last := clk }
      else
        { s with desired_meat_temp := s.desired_meat_temp + 2, encoder_state_last := clk }
    else
      if s.current_setting = 0 then
        { s with desired_temp := s.desired_temp - 2, encoder_state_last := clk }
      else
        { s with desired_meat_temp := s.desired_meat_temp - 2, encoder_state_last := clk }
  else
    { s with encoder_state_last := clk }

/-- `const int button_debounce_time = 500`. -/
def button_debounce_time : Nat := 500

/-- Lines 261-266, `handleButton()`: `btnLow` is `digitalRead(...) == LOW`. -/
def handleButton (s : UiState) (btnLow : Bool) (now : Nat) : UiState :=
  if btnLow = true ∧ button_debounce_time < ulSub now s.last_button_press then
    { s with current_setting := (s.current_setting + 1) % 2, last_button_press := now }
  else s

/-! ## Basic arithmetic and preservation lemmas -/

theorem ulSub_eq_sub {a b : Nat} (hba : b ≤ a) (ha : a < UL_MOD) :
    ulSub a b = a - b := by
  have hb : b < UL_MOD := lt_of_le_of_lt hba ha
  unfold ulSub
  rw [Nat.mod_eq_of_lt ha, Nat.mod_eq_of_lt hb]
  have h1 : a + (UL_MOD - b) = UL_MOD + (a - b) := by omega
  rw [h1, Nat.add_mod_left]
  exact Nat.mod_eq_of_lt (by omega)

theorem controlHeater_system_on (s : SmokerState) (now : Nat) :
    (controlHeater s now).system_on = s.system_on := by
  simp only [controlHeater]; split_ifs <;> rfl

theorem controlHeater_error_state (s : SmokerState) (now : Nat) :
    (controlHeater s now).error_state = s.error_state := by
  simp only [controlHeater]; split_ifs <;> rfl

theorem controlHeater_fan_on (s : SmokerState) (now : Nat) :
    (controlHeater s now).fan_on = s.fan_on := by
  simp only [controlHeater]; split_ifs <;> rfl

theorem controlHeater_fan_pin (s : SmokerState) (now : Nat) :
    (controlHeater s now).fan_pin = s.fan_pin := by
  simp only [controlHeater]; split_ifs <;> rfl

theorem controlHeater_last_fan (s : SmokerState) (now : Nat) :
    (controlHeater s now).last_fan_toggle_time = s.last_fan_toggle_time := by
  simp only [controlHeater]; split_ifs <;> rfl

theorem controlHeater_top (s : SmokerState) (now : Nat) :
    (controlHeater s now).top_temp = s.top_temp := by
  simp only [controlHeater]; split_ifs <;> rfl

theorem controlHeater_bottom (s : SmokerState) (now : Nat) :
    (controlHeater s now).bottom_temp = s.bottom_temp := by
  simp only [controlHeater]; split_ifs <;> rfl

theorem controlHeater_meat (s : SmokerState) (now : Nat) :
    (controlHeater s now).meat_temp = s.meat_temp := by
  simp only [controlHeater]; split_ifs <;> rfl

theorem controlHeater_desired_meat (s : SmokerState) (now : Nat) :
    (controlHeater s now).desired_meat_temp = s.desired_meat_temp := by
  simp only [controlHeater]; split_ifs <;> rfl

theorem controlFan_heater_on (s : SmokerState) (now : Nat) :
    (controlFan s now).heater_on = s.heater_on := by
  simp only [controlFan]; split_ifs <;> rfl

theorem controlFan_heater_pin (s : SmokerState) (now : Nat) :
    (controlFan s now).heater_pin = s.heater_pin := by
  simp only [controlFan]; split_ifs <;> rfl

theorem controlFan_last_heater (s : SmokerState) (now : Nat) :
    (controlFan s now).last_heater_toggle_time = s.last_heater_toggle_time := by
  simp only [controlFan]; split_ifs <;> rfl

theorem controlFan_system_on (s : SmokerState) (now : Nat) :
    (controlFan s now).system_on = s.system_on := by
  simp only [controlFan]; split_ifs <;> rfl

theorem controlFan_error_state (s : SmokerState) (now : Nat) :
    (controlFan s now).error_state = s.error_state := by
  simp only [controlFan]; split_ifs <;> rfl

theorem controlFan_desired (s : SmokerState) (now : Nat) :
    (controlFan s now).desired_temp = s.desired_temp := by
  simp only [controlFan]; split_ifs <;> rfl

theorem controlFan_desired_meat (s : SmokerState) (now : Nat) :
    (controlFan s now).desired_meat_temp = s.desired_meat_temp := by
  simp only [controlFan]; split_ifs <;> rfl

theorem readPhase_heater_on (s : SmokerState) (i : CycleInput) :
    (readPhase s i).heater_on = s.heater_on := by
  simp only [readPhase]; split_ifs <;> rfl

theorem readPhase_fan_on (s : SmokerState) (i : CycleInput) :
    (readPhase s i).fan_on = s.fan_on := by
  simp only [readPhase]; split_ifs <;> rfl

theorem readPhase_heater_pin (s : SmokerState) (i : CycleInput) :
    (readPhase s i).heater_pin = s.heater_pin := by
  simp only [readPhase]; split_ifs <;> rfl

theorem readPhase_fan_pin (s : SmokerState) (i : CycleInput) :
    (readPhase s i).fan_pin = s.fan_pin := by
  simp only [readPhase]; split_ifs <;> rfl

theorem readPhase_last_heater (s : SmokerState) (i : CycleInput) :
    (readPhase s i).last_heater_toggle_time = s.last_heater_toggle_time := by
  simp only [readPhase]; split_ifs <;> rfl

theorem readPhase_last_fan (s : SmokerState) (i : CycleInput) :
    (readPhase s i).last_fan_toggle_time = s.last_fan_toggle_time := by
  simp only [readPhase]; split_ifs <;> rfl

theorem readPhase_desired (s : SmokerState) (i : CycleInput) :
    (readPhase s i).desired_temp = s.desired_temp := by
  simp only [readPhase]; split_ifs <;> rfl

theorem readPhase_desired_meat (s : SmokerState) (i : CycleInput) :
    (readPhase s i).desired_meat_temp = s.desired_meat_temp := by
  simp only [readPhase]; split_ifs <;> rfl

theorem readPhase_top (s : SmokerState) (i : CycleInput) :
    (readPhase s i).top_temp = clampTemp i.rawTop := by
  simp only [readPhase]; split_ifs <;> rfl

theorem readPhase_bottom (s : SmokerState) (i : CycleInput) :
    (readPhase s i).bottom_temp = clampTemp i.rawBot := by
  simp only [readPhase]; split_ifs <;> rfl

theorem readPhase_meat (s : SmokerState) (i : CycleInput) :
    (readPhase s i).meat_temp = clampTemp i.rawMeat := by
  simp only [readPhase]; split_ifs <;> rfl

/-- `error_state` is only ever assigned `true` inside `loop()`: nothing in
the program clears it. -/
theorem readPhase_error_persists (s : SmokerState) (i : CycleInput)
    (h : s.error_state = true) : (readPhase s i).error_state = true := by
  simp only [readPhase]; split_ifs <;> simp [h]

/-- The three-channel emergency condition of line 197, phrased on the clamped
readings used by the cycle. -/
def tripped (i : CycleInput) : Prop :=
  EMERGENCY_TEMP ≤ clampTemp i.rawTop ∨ EMERGENCY_TEMP ≤ clampTemp i.rawBot ∨
    EMERGENCY_TEMP ≤ clampTemp i.rawMeat

instance (i : CycleInput) : Decidable (tripped i) := by
  unfold tripped; infer_instance

theorem readPhase_trip (s : SmokerState) (i : CycleInput) (h : tripped i) :
    (readPhase s i).error_state = true ∧ (readPhase s i).system_on = false := by
  simp only [readPhase, tripped] at h ⊢
  split_ifs with h1 h2 <;> simp_all

/-! ## Facts about one whole `loop()` iteration -/

theorem loopStep_system_on (s : SmokerState) (i : CycleInput) :
    (loopStep s i).system_on = (readPhase s i).system_on := by
  simp only [loopStep]
  split_ifs <;> simp [controlFan_system_on, controlHeater_system_on]

theorem loopStep_error_state (s : SmokerState) (i : CycleInput) :
    (loopStep s i).error_state = (readPhase s i).error_state := by
  simp only [loopStep]
  split_ifs <;> simp [controlFan_error_state, controlHeater_error_state]

/-- Once latched, `error_state` survives every later cycle: no statement in
the program ever assigns it `false`. -/
theorem loopStep_error_persists (s : SmokerState) (i : CycleInput)
    (h : s.error_state = true) : (loopStep s i).error_state = true := by
  rw [loopStep_error_state]; exact readPhase_error_persists s i h

/-- If the cycle ends outside Running (`system_on && !error_state` false after
the emergency check), the forced-off branch ran: flags and pins are false and
the dwell timestamps and both targets are untouched. -/
theorem loopStep_not_running (s : SmokerState) (i : CycleInput)
    (h : ¬((readPhase s i).system_on = true ∧ (readPhase s i).error_state = false)) :
    (loopStep s i).heater_on = false ∧ (loopStep s i).fan_on = false ∧
    (loopStep s i).heater_pin = false ∧ (loopStep s i).fan_pin = false ∧
    (loopStep s i).last_heater_toggle_time = s.last_heater_toggle_time ∧
    (loopStep s i).last_fan_toggle_time = s.last_fan_toggle_time ∧
    (loopStep s i).desired_temp = s.desired_temp ∧
    (loopStep s i).desired_meat_temp = s.desired_meat_temp := by
  simp only [loopStep]
  rw [if_neg h]
  exact ⟨rfl, rfl, rfl, rfl, readPhase_last_heater s i, readPhase_last_fan s i,
    readPhase_desired s i, readPhase_desired_meat s i⟩

/-- With the error latched, every cycle takes the forced-off branch. -/
theorem loopStep_error_off (s : SmokerState) (i : CycleInput)
    (h : s.error_state = true) :
    (loopStep s i).error_state = true ∧ (loopStep s i).heater_on = false ∧
    (loopStep s i).fan_on = false ∧ (loopStep s i).heater_pin = false ∧
    (loopStep s i).fan_pin = false := by
  have herr : (readPhase s i).error_state = true := readPhase_error_persists s i h
  have hnr : ¬((readPhase s i).system_on = true ∧ (readPhase s i).error_state = false) := by
    intro hc; rw [herr] at hc; exact absurd hc.2 (by simp)
  obtain ⟨h1, h2, h3, h4, _⟩ := loopStep_not_running s i hnr
  exact ⟨loopStep_error_persists s i h, h1, h2, h3, h4⟩

/-- In the error state the actuators stay off over any continuation of the
run. -/
theorem runLoop_error_off (l : List CycleInput) : ∀ s : SmokerState,
    s.error_state = true → s.heater_on = false → s.fan_on = false →
    s.heater_pin = false → s.fan_pin = false →
    (runLoop s l).error_state = true ∧ (runLoop s l).heater_on = false ∧
    (runLoop s l).fan_on = false ∧ (runLoop s l).heater_pin = false ∧
    (runLoop s l).fan_pin = false := by
  induction l with
  | nil => intro s h1 h2 h3 h4 h5; exact ⟨h1, h2, h3, h4, h5⟩
  | cons i rest ih =>
    intro s h1 _ _ _ _
    obtain ⟨e1, e2, e3, e4, e5⟩ := loopStep_error_off s i h1
    exact ih (loopStep s i) e1 e2 e3 e4 e5

theorem loopStep_top (s : SmokerState) (i : CycleInput) :
    (loopStep s i).top_temp = clampTemp i.rawTop := by
  simp only [loopStep]
  split_ifs <;>
    simp [controlFan_heater_on, readPhase_top, controlFan, controlHeater] <;>
    split_ifs <;> simp [readPhase_top]

theorem loopStep_bottom (s : SmokerState) (i : CycleInput) :
    (loopStep s i).bottom_temp = clampTemp i.rawBot := by
  simp only [loopStep]
  split_ifs <;>
    simp [controlFan_heater_on, readPhase_bottom, controlFan, controlHeater] <;>
    split_ifs <;> simp [readPhase_bottom]

theorem loopStep_meat (s : SmokerState) (i : CycleInput) :
    (loopStep s i).meat_temp = clampTemp i.rawMeat := by
  simp only [loopStep]
  split_ifs <;>
    simp [controlFan_heater_on, readPhase_meat, controlFan, controlHeater] <;>
    split_ifs <;> simp [readPhase_meat]

/-- A cycle that ends outside Running (switch reads off, or the error is
latched) took the forced-off branch of `loop()`. -/
theorem not_running_forces_off (s : SmokerState) (i : CycleInput)
    (h : (loopStep s i).system_on = false ∨ (loopStep s i).error_state = true) :
    (loopStep s i).heater_on = false ∧ (loopStep s i).fan_on = false ∧
    (loopStep s i).heater_pin = false ∧ (loopStep s i).fan_pin = false ∧
    (loopStep s i).last_heater_toggle_time = s.last_heater_toggle_time ∧
    (loopStep s i).last_fan_toggle_time = s.last_fan_toggle_time ∧
    (loopStep s i).desired_temp = s.desired_temp ∧
    (loopStep s i).desired_meat_temp = s.desired_meat_temp := by
  rw [loopStep_system_on, loopStep_error_state] at h
  refine loopStep_not_running s i ?_
  intro ⟨h1, h2⟩
  rcases h with h | h
  · rw [h1] at h; simp at h
  · rw [h2] at h; simp at h

/-- No switch Off→On edge occurs along a list of cycle inputs, the previous
switch level being the first argument. -/
def noOffOnEdge : Bool → List CycleInput → Prop
  | _, [] => True
  | prev, i :: rest => ¬(prev = false ∧ i.switch = true) ∧ noOffOnEdge i.switch rest

/-! ## Claim theorems -/

/-- C1: the spec (and the header comment of `main.cpp`, lines 39-40) says a
switch Off→On edge with all readings below the emergency threshold clears the
latched error and yields Running.  The program never assigns
`error_state = false`, so the latch survives the edge: after tripping at
250 °F, switching off, and switching back on with all readings at 100 °F, the
cycle ends with `error_state` still latched, the system not Running, and both
actuators forced off. -/
theorem C1_error_latch_never_cleared :
    (loopStep initState ⟨true, 250, 100, 100, 1000⟩).error_state = true ∧
    (loopStep (loopStep initState ⟨true, 250, 100, 100, 1000⟩)
        ⟨false, 100, 100, 100, 1100⟩).system_on = false ∧
    (loopStep (loopStep (loopStep initState ⟨true, 250, 100, 100, 1000⟩)
        ⟨false, 100, 100, 100, 1100⟩) ⟨true, 100, 100, 100, 1200⟩).system_on = true ∧
    (loopStep (loopStep (loopStep initState ⟨true, 250, 100, 100, 1000⟩)
        ⟨false, 100, 100, 100, 1100⟩) ⟨true, 100, 100, 100, 1200⟩).error_state = true ∧
    (loopStep (loopStep (loopStep initState ⟨true, 250, 100, 100, 1000⟩)
        ⟨false, 100, 100, 100, 1100⟩) ⟨true, 100, 100, 100, 1200⟩).heater_on = false ∧
    (loopStep (loopStep (loopStep initState ⟨true, 250, 100, 100, 1000⟩)
        ⟨false, 100, 100, 100, 1100⟩) ⟨true, 100, 100, 100, 1200⟩).fan_on = false ∧
    (loopStep (loopStep (loopStep initState ⟨true, 250, 100, 100, 1000⟩)
        ⟨false, 100, 100, 100, 1100⟩) ⟨true, 100, 100, 100, 1200⟩).heater_pin = false ∧
    (loopStep (loopStep (loopStep initState ⟨true, 250, 100, 100, 1000⟩)
        ⟨false, 100, 100, 100, 1100⟩) ⟨true, 100, 100, 100, 1200⟩).fan_pin = false := by
  decide

/-- C2: on any cycle in which some clamped reading is at or above the
emergency threshold, the cycle ends with the error latched and both actuator
flags and pins off, and after every later cycle (here: with no switch Off→On
edge, though the code keeps them off unconditionally) they are still off and
the error is still latched. -/
theorem C2_emergency_trip_forces_off (s : SmokerState) (i : CycleInput)
    (rest : List CycleInput) (htrip : tripped i)
    (_hnoedge : noOffOnEdge i.switch rest) :
    (loopStep s i).error_state = true ∧ (loopStep s i).heater_on = false ∧
    (loopStep s i).fan_on = false ∧ (loopStep s i).heater_pin = false ∧
    (loopStep s i).fan_pin = false ∧
    ∀ n : Nat,
      (runLoop (loopStep s i) (rest.take n)).error_state = true ∧
      (runLoop (loopStep s i) (rest.take n)).heater_on = false ∧
      (runLoop (loopStep s i) (rest.take n)).fan_on = false ∧
      (runLoop (loopStep s i) (rest.take n)).heater_pin = false ∧
      (runLoop (loopStep s i) (rest.take n)).fan_pin = false := by
  obtain ⟨herr, hsys⟩ := readPhase_trip s i htrip
  have hnr : ¬((readPhase s i).system_on = true ∧ (readPhase s i).error_state = false) := by
    intro hc; rw [hsys] at hc; simp at hc
  obtain ⟨h1, h2, h3, h4, _⟩ := loopStep_not_running s i hnr
  have herr2 : (loopStep s i).error_state = true := by
    rw [loopStep_error_state]; exact herr
  refine ⟨herr2, h1, h2, h3, h4, fun n => ?_⟩
  exact runLoop_error_off (rest.take n) (loopStep s i) herr2 h1 h2 h3 h4

/-- C2 witness: tripping at 250 °F on the first cycle with one further,
edge-free cycle. -/
theorem C2_emergency_trip_forces_off_witness :
    tripped ⟨true, 250, 100, 100, 1000⟩ ∧
    ((loopStep initState ⟨true, 250, 100, 100, 1000⟩).error_state = true ∧
     (loopStep initState ⟨true, 250, 100, 100, 1000⟩).heater_on = false ∧
     (loopStep initState ⟨true, 250, 100, 100, 1000⟩).fan_on = false ∧
     (loopStep initState ⟨true, 250, 100, 100, 1000⟩).heater_pin = false ∧
     (loopStep initState ⟨true, 250, 100, 100, 1000⟩).fan_pin = false ∧
     ∀ n : Nat,
       (runLoop (loopStep initState ⟨true, 250, 100, 100, 1000⟩)
          (List.take n [⟨true, 100, 100, 100, 1100⟩])).error_state = true ∧
       (runLoop (loopStep initState ⟨true, 250, 100, 100, 1000⟩)
          (List.take n [⟨true, 100, 100, 100, 1100⟩])).heater_on = false ∧
       (runLoop (loopStep initState ⟨true, 250, 100, 100, 1000⟩)
          (List.take n [⟨true, 100, 100, 100, 1100⟩])).fan_on = false ∧
       (runLoop (loopStep initState ⟨true, 250, 100, 100, 1000⟩)
          (List.take n [⟨true, 100, 100, 100, 1100⟩])).heater_pin = false ∧
       (runLoop (loopStep initState ⟨true, 250, 100, 100, 1000⟩)
          (List.take n [⟨true, 100, 100, 100, 1100⟩])).fan_pin = false) :=
  ⟨by decide,
   C2_emergency_trip_forces_off initState ⟨true, 250, 100, 100, 1000⟩
     [⟨true, 100, 100, 100, 1100⟩] (by decide) (by simp [noOffOnEdge])⟩

/-- C4: whenever a cycle ends outside Running (switch off or error latched),
the forced-off branch has driven both flags and both pins off, with no
condition on the dwell timestamps; and the forcing is idempotent: if the next
cycle is also outside Running, everything stays off. -/
theorem C4_not_running_forces_both_off (s : SmokerState) (i : CycleInput)
    (h : (loopStep s i).system_on = false ∨ (loopStep s i).error_state = true) :
    ((loopStep s i).heater_on = false ∧ (loopStep s i).fan_on = false ∧
     (loopStep s i).heater_pin = false ∧ (loopStep s i).fan_pin = false) ∧
    ∀ j : CycleInput,
      ((loopStep (loopStep s i) j).system_on = false ∨
       (loopStep (loopStep s i) j).error_state = true) →
      (loopStep (loopStep s i) j).heater_on = false ∧
      (loopStep (loopStep s i) j).fan_on = false ∧
      (loopStep (loopStep s i) j).heater_pin = false ∧
      (loopStep (loopStep s i) j).fan_pin = false := by
  obtain ⟨h1, h2, h3, h4, _⟩ := not_running_forces_off s i h
  refine ⟨⟨h1, h2, h3, h4⟩, fun j hj => ?_⟩
  obtain ⟨g1, g2, g3, g4, _⟩ := not_running_forces_off (loopStep s i) j hj
  exact ⟨g1, g2, g3, g4⟩

/-- C4 witness: a cycle with the switch off while the heater flag was on. -/
theorem C4_not_running_forces_both_off_witness :
    ((loopStep { initState with heater_on := true, heater_pin := true }
        ⟨false, 100, 100, 50, 1000⟩).system_on = false ∨
     (loopStep { initState with heater_on := true, heater_pin := true }
        ⟨false, 100, 100, 50, 1000⟩).error_state = true) ∧
    (((loopStep { initState with heater_on := true, heater_pin := true }
        ⟨false, 100, 100, 50, 1000⟩).heater_on = false ∧
      (loopStep { initState with heater_on := true, heater_pin := true }
        ⟨false, 100, 100, 50, 1000⟩).fan_on = false ∧
      (loopStep { initState with heater_on := true, heater_pin := true }
        ⟨false, 100, 100, 50, 1000⟩).heater_pin = false ∧
      (loopStep { initState with heater_on := true, heater_pin := true }
        ⟨false, 100, 100, 50, 1000⟩).fan_pin = false) ∧
     ∀ j : CycleInput,
       ((loopStep (loopStep { initState with heater_on := true, heater_pin := true }
           ⟨false, 100, 100, 50, 1000⟩) j).system_on = false ∨
        (loopStep (loopStep { initState with heater_on := true, heater_pin := true }
           ⟨false, 100, 100, 50, 1000⟩) j).error_state = true) →
       (loopStep (loopStep { initState with heater_on := true, heater_pin := true }
           ⟨false, 100, 100, 50, 1000⟩) j).heater_on = false ∧
       (loopStep (loopStep { initState with heater_on := true, heater_pin := true }
           ⟨false, 100, 100, 50, 1000⟩) j).fan_on = false ∧
       (loopStep (loopStep { initState with heater_on := true, heater_pin := true }
           ⟨false, 100, 100, 50, 1000⟩) j).heater_pin = false ∧
       (loopStep (loopStep { initState with heater_on := true, heater_pin := true }
           ⟨false, 100, 100, 50, 1000⟩) j).fan_pin = false) :=
  ⟨by decide,
   C4_not_running_forces_both_off { initState with heater_on := true, heater_pin := true }
     ⟨false, 100, 100, 50, 1000⟩ (by decide)⟩

/-- C9: the readings stored by a cycle (and used by the emergency check and
both controllers) are the clamped raw values; the clamp never exceeds 999,
replaces values above 999 by 999, and passes values at or below 999 through
unchanged. -/
theorem C9_readings_clamped_at_999 (s : SmokerState) (i : CycleInput) (t : Int) :
    (loopStep s i).top_temp = clampTemp i.rawTop ∧
    (loopStep s i).bottom_temp = clampTemp i.rawBot ∧
    (loopStep s i).meat_temp = clampTemp i.rawMeat ∧
    clampTemp t ≤ 999 ∧ (999 < t → clampTemp t = 999) ∧
    (t ≤ 999 → clampTemp t = t) := by
  refine ⟨loopStep_top s i, loopStep_bottom s i, loopStep_meat s i, ?_, ?_, ?_⟩ <;>
    · unfold clampTemp; split_ifs <;> omega

/-- C9 witness: a 1500 °F glitch on the top channel. -/
theorem C9_readings_clamped_at_999_witness :
    (loopStep initState ⟨true, 1500, 800, 999, 1000⟩).top_temp = clampTemp 1500 ∧
    (loopStep initState ⟨true, 1500, 800, 999, 1000⟩).bottom_temp = clampTemp 800 ∧
    (loopStep initState ⟨true, 1500, 800, 999, 1000⟩).meat_temp = clampTemp 999 ∧
    clampTemp 1500 ≤ 999 ∧ ((999 : Int) < 1500 → clampTemp 1500 = 999) ∧
    ((1500 : Int) ≤ 999 → clampTemp 1500 = 1500) :=
  C9_readings_clamped_at_999 initState ⟨true, 1500, 800, 999, 1000⟩ 1500

/-- C10: the forced-off branch clears the actuator flags and drives both pins
low but leaves both dwell timestamps and both targets untouched; consequently
(closed scenario in the last conjunct) after the heater toggles on at
t = 20000 ms, is forced off by the switch at t = 20100 ms, and the system
returns to Running at t = 30000 ms — exactly 10 s after the recorded toggle —
the heater turns back on in that first Running cycle. -/
theorem C10_forced_off_frame (s : SmokerState) (i : CycleInput)
    (h : (loopStep s i).system_on = false ∨ (loopStep s i).error_state = true) :
    (loopStep s i).heater_on = false ∧ (loopStep s i).fan_on = false ∧
    (loopStep s i).heater_pin = false ∧ (loopStep s i).fan_pin = false ∧
    (loopStep s i).last_heater_toggle_time = s.last_heater_toggle_time ∧
    (loopStep s i).last_fan_toggle_time = s.last_fan_toggle_time ∧
    (loopStep s i).desired_temp = s.desired_temp ∧
    (loopStep s i).desired_meat_temp = s.desired_meat_temp ∧
    ((loopStep initState ⟨true, 100, 100, 50, 20000⟩).heater_on = true ∧
     (loopStep (loopStep initState ⟨true, 100, 100, 50, 20000⟩)
        ⟨false, 100, 100, 50, 20100⟩).heater_on = false ∧
     (loopStep (loopStep initState ⟨true, 100, 100, 50, 20000⟩)
        ⟨false, 100, 100, 50, 20100⟩).last_heater_toggle_time = 20000 ∧
     (loopStep (loopStep (loopStep initState ⟨true, 100, 100, 50, 20000⟩)
        ⟨false, 100, 100, 50, 20100⟩) ⟨true, 100, 100, 50, 30000⟩).heater_on = true) := by
  obtain ⟨h1, h2, h3, h4, h5, h6, h7, h8⟩ := not_running_forces_off s i h
  exact ⟨h1, h2, h3, h4, h5, h6, h7, h8, by decide⟩

/-- C10 witness: the switch reads off. -/
theorem C10_forced_off_frame_witness :
    ((loopStep initState ⟨false, 100, 100, 50, 1000⟩).system_on = false ∨
     (loopStep initState ⟨false, 100, 100, 50, 1000⟩).error_state = true) ∧
    ((loopStep initState ⟨false, 100, 100, 50, 1000⟩).heater_on = false ∧
     (loopStep initState ⟨false, 100, 100, 50, 1000⟩).fan_on = false ∧
     (loopStep initState ⟨false, 100, 100, 50, 1000⟩).heater_pin = false ∧
     (loopStep initState ⟨false, 100, 100, 50, 1000⟩).fan_pin = false ∧
     (loopStep initState ⟨false, 100, 100, 50, 1000⟩).last_heater_toggle_time =
       initState.last_heater_toggle_time ∧
     (loopStep initState ⟨false, 100, 100, 50, 1000⟩).last_fan_toggle_time =
       initState.last_fan_toggle_time ∧
     (loopStep initState ⟨false, 100, 100, 50, 1000⟩).desired_temp =
       initState.desired_temp ∧
     (loopStep initState ⟨false, 100, 100, 50, 1000⟩).desired_meat_temp =
       initState.desired_meat_temp ∧
     ((loopStep initState ⟨true, 100, 100, 50, 20000⟩).heater_on = true ∧
      (loopStep (loopStep initState ⟨true, 100, 100, 50, 20000⟩)
         ⟨false, 100, 100, 50, 20100⟩).heater_on = false ∧
      (loopStep (loopStep initState ⟨true, 100, 100, 50, 20000⟩)
         ⟨false, 100, 100, 50, 20100⟩).last_heater_toggle_time = 20000 ∧
      (loopStep (loopStep (loopStep initState ⟨true, 100, 100, 50, 20000⟩)
         ⟨false, 100, 100, 50, 20100⟩) ⟨true, 100, 100, 50, 30000⟩).heater_on = true)) :=
  ⟨by decide, C10_forced_off_frame initState ⟨false, 100, 100, 50, 1000⟩ (by decide)⟩

/-- The enclosure target actually used by the on/off conditions of
`controlHeater`: lowered to the meat target when the meat is done
(lines 272-274). -/
def heaterTargetNow (s : SmokerState) : Int :=
  if s.desired_meat_temp ≤ s.meat_temp then s.desired_meat_temp else s.desired_temp

/-- C5: a heater evaluation turns the heater on exactly when it is off, the
Top reading is strictly below the (possibly just lowered) enclosure target
minus the 5-degree buffer, and 10 s of dwell have elapsed; it turns it off
exactly when it is on, Top or Bottom is at or above the target, and the dwell
has elapsed; otherwise the flag is unchanged. -/
theorem C5_heater_decision (s : SmokerState) (now : Nat)
    (hlb : s.last_heater_toggle_time ≤ now) (hnow : now < UL_MOD) :
    ((controlHeater s now).heater_on = true ∧ s.heater_on = false ↔
      s.heater_on = false ∧ s.top_temp < heaterTargetNow s - temp_buffer ∧
      HEATER_CYCLE_TIME ≤ now - s.last_heater_toggle_time) ∧
    ((controlHeater s now).heater_on = false ∧ s.heater_on = true ↔
      s.heater_on = true ∧
      (heaterTargetNow s ≤ s.top_temp ∨ heaterTargetNow s ≤ s.bottom_temp) ∧
      HEATER_CYCLE_TIME ≤ now - s.last_heater_toggle_time) ∧
    (¬(s.heater_on = false ∧ s.top_temp < heaterTargetNow s - temp_buffer ∧
        HEATER_CYCLE_TIME ≤ now - s.last_heater_toggle_time) →
     ¬(s.heater_on = true ∧
        (heaterTargetNow s ≤ s.top_temp ∨ heaterTargetNow s ≤ s.bottom_temp) ∧
        HEATER_CYCLE_TIME ≤ now - s.last_heater_toggle_time) →
     (controlHeater s now).heater_on = s.heater_on) := by
  have hul : ulSub now s.last_heater_toggle_time = now - s.last_heater_toggle_time :=
    ulSub_eq_sub hlb hnow
  simp only [controlHeater, heaterTargetNow]
  split_ifs with hm h1 h2 h1 h2 <;> simp_all

/-- Witness state for the heater scenario of spec item 8.5: target 230,
buffer 5, Top 224, Bottom 220, heater off. -/
def c5state : SmokerState :=
  { initState with top_temp := 224, bottom_temp := 220, meat_temp := 50 }

/-- C5 witness: the concrete scenario of spec item 8.5, dwell satisfied at
t = 20000 ms. -/
theorem C5_heater_decision_witness :
    c5state.last_heater_toggle_time ≤ 20000 ∧ 20000 < UL_MOD ∧
    (((controlHeater c5state 20000).heater_on = true ∧ c5state.heater_on = false ↔
      c5state.heater_on = false ∧
      c5state.top_temp < heaterTargetNow c5state - temp_buffer ∧
      HEATER_CYCLE_TIME ≤ 20000 - c5state.last_heater_toggle_time) ∧
     ((controlHeater c5state 20000).heater_on = false ∧ c5state.heater_on = true ↔
      c5state.heater_on = true ∧
      (heaterTargetNow c5state ≤ c5state.top_temp ∨
       heaterTargetNow c5state ≤ c5state.bottom_temp) ∧
      HEATER_CYCLE_TIME ≤ 20000 - c5state.last_heater_toggle_time) ∧
     (¬(c5state.heater_on = false ∧
        c5state.top_temp < heaterTargetNow c5state - temp_buffer ∧
        HEATER_CYCLE_TIME ≤ 20000 - c5state.last_heater_toggle_time) →
      ¬(c5state.heater_on = true ∧
        (heaterTargetNow c5state ≤ c5state.top_temp ∨
         heaterTargetNow c5state ≤ c5state.bottom_temp) ∧
        HEATER_CYCLE_TIME ≤ 20000 - c5state.last_heater_toggle_time) →
      (controlHeater c5state 20000).heater_on = c5state.heater_on)) :=
  ⟨by decide, by decide,
   C5_heater_decision c5state 20000 (by decide) (by decide)⟩

/-- Iterated fan-control evaluations over successive Running cycles: each
element supplies the (clamped) Top and Bottom readings and the `millis()`
value of that cycle. -/
def fanRun (s : SmokerState) : List (Int × Int × Nat) → SmokerState
  | [] => s
  | (t, b, n) :: rest => fanRun (controlFan { s with top_temp := t, bottom_temp := b } n) rest

/-- A running fan with spread strictly above the off threshold cannot turn
off, dwell or not. -/
theorem controlFan_stays_on (s : SmokerState) (now : Nat)
    (hfan : s.fan_on = true) (hsp : FAN_TEMP_DELTA_OFF < |s.top_temp - s.bottom_temp|) :
    (controlFan s now).fan_on = true := by
  simp only [controlFan]
  split_ifs with h1 h2
  · rfl
  · exact absurd h2.2.1 (not_le.mpr hsp)
  · exact hfan

/-- Over any sequence of fan evaluations whose spreads stay strictly above
the off threshold, a running fan keeps running. -/
theorem fanRun_stays_on (l : List (Int × Int × Nat)) : ∀ s : SmokerState,
    s.fan_on = true →
    (∀ p ∈ l, FAN_TEMP_DELTA_OFF < |p.1 - p.2.1| ∧ |p.1 - p.2.1| ≤ FAN_TEMP_DELTA_ON) →
    (fanRun s l).fan_on = true := by
  induction l with
  | nil => intro s h _; exact h
  | cons p rest ih =>
    obtain ⟨t, b, n⟩ := p
    intro s hfan hsp
    have h1 := hsp (t, b, n) (by simp)
    simp only [fanRun]
    apply ih
    · exact controlFan_stays_on _ n hfan (by simpa using h1.1)
    · intro q hq; exact hsp q (by simp [hq])

/-- C6: a fan evaluation turns the fan on exactly when it is off, the spread
|Top − Bottom| exceeds 30 degrees, and 60 s of dwell have elapsed; it turns
it off exactly when it is on, the spread is at most 15 degrees, and the dwell
has elapsed; and once on, the fan stays on over any sequence of evaluations
whose spreads stay within (15, 30]. -/
theorem C6_fan_decision (s : SmokerState) (now : Nat)
    (hlb : s.last_fan_toggle_time ≤ now) (hnow : now < UL_MOD) :
    ((controlFan s now).fan_on = true ∧ s.fan_on = false ↔
      s.fan_on = false ∧ FAN_TEMP_DELTA_ON < |s.top_temp - s.bottom_temp| ∧
      FAN_CYCLE_TIME ≤ now - s.last_fan_toggle_time) ∧
    ((controlFan s now).fan_on = false ∧ s.fan_on = true ↔
      s.fan_on = true ∧ |s.top_temp - s.bottom_temp| ≤ FAN_TEMP_DELTA_OFF ∧
      FAN_CYCLE_TIME ≤ now - s.last_fan_toggle_time) ∧
    (∀ l : List (Int × Int × Nat), s.fan_on = true →
      (∀ p ∈ l, FAN_TEMP_DELTA_OFF < |p.1 - p.2.1| ∧ |p.1 - p.2.1| ≤ FAN_TEMP_DELTA_ON) →
      (fanRun s l).fan_on = true) := by
  have hul : ulSub now s.last_fan_toggle_time = now - s.last_fan_toggle_time :=
    ulSub_eq_sub hlb hnow
  refine ⟨?_, ?_, ?_⟩
  · simp only [controlFan]; split_ifs with h1 h2 <;> simp_all
  · simp only [controlFan]; split_ifs with h1 h2 <;> simp_all
  · intro l hfan hsp
    exact fanRun_stays_on l s hfan hsp

/-- C6 witness: fan already on, spreads oscillating 16 / 30 / 29. -/
theorem C6_fan_decision_witness :
    ({ initState with fan_on := true } : SmokerState).last_fan_toggle_time ≤ 60000 ∧
    60000 < UL_MOD ∧
    (((controlFan { initState with fan_on := true } 60000).fan_on = true ∧
      ({ initState with fan_on := true } : SmokerState).fan_on = false ↔
      ({ initState with fan_on := true } : SmokerState).fan_on = false ∧
      FAN_TEMP_DELTA_ON < |({ initState with fan_on := true } : SmokerState).top_temp -
        ({ initState with fan_on := true } : SmokerState).bottom_temp| ∧
      FAN_CYCLE_TIME ≤ 60000 -
        ({ initState with fan_on := true } : SmokerState).last_fan_toggle_time) ∧
     ((controlFan { initState with fan_on := true } 60000).fan_on = false ∧
      ({ initState with fan_on := true } : SmokerState).fan_on = true ↔
      ({ initState with fan_on := true } : SmokerState).fan_on = true ∧
      |({ initState with fan_on := true } : SmokerState).top_temp -
        ({ initState with fan_on := true } : SmokerState).bottom_temp| ≤ FAN_TEMP_DELTA_OFF ∧
      FAN_CYCLE_TIME ≤ 60000 -
        ({ initState with fan_on := true } : SmokerState).last_fan_toggle_time) ∧
     (∀ l : List (Int × Int × Nat),
        ({ initState with fan_on := true } : SmokerState).fan_on = true →
        (∀ p ∈ l, FAN_TEMP_DELTA_OFF < |p.1 - p.2.1| ∧ |p.1 - p.2.1| ≤ FAN_TEMP_DELTA_ON) →
        (fanRun { initState with fan_on := true } l).fan_on = true)) :=
  ⟨by decide, by decide,
   C6_fan_decision { initState with fan_on := true } 60000 (by decide) (by decide)⟩

/-- C7: once the meat reading is at or above the meat target, `controlHeater`
sets `desired_temp := desired_meat_temp` before evaluating the on/off
conditions — evaluating exactly as if the enclosure target had already been
lowered — and the lowered value is what is stored for later cycles; the meat
target itself is never changed, the only value the controller ever assigns to
the enclosure target is the meat target, and under the convergence ordering
(enclosure target at or above meat target) the enclosure target never rises. -/
theorem C7_meat_target_convergence (s : SmokerState) (now : Nat) :
    ((controlHeater s now).desired_temp =
      if s.desired_meat_temp ≤ s.meat_temp then s.desired_meat_temp
      else s.desired_temp) ∧
    ((controlHeater s now).desired_meat_temp = s.desired_meat_temp) ∧
    (s.desired_meat_temp ≤ s.meat_temp →
      controlHeater s now = controlHeater { s with desired_temp := s.desired_meat_temp } now) ∧
    ((controlHeater s now).desired_temp = s.desired_temp ∨
     (controlHeater s now).desired_temp = s.desired_meat_temp) ∧
    (s.desired_meat_temp ≤ s.desired_temp →
      (controlHeater s now).desired_temp ≤ s.desired_temp) := by
  have hchar : (controlHeater s now).desired_temp =
      if s.desired_meat_temp ≤ s.meat_temp then s.desired_meat_temp
      else s.desired_temp := by
    simp only [controlHeater]
    split_ifs <;> simp_all
  refine ⟨hchar, ?_, ?_, ?_, ?_⟩
  · exact controlHeater_desired_meat s now
  · intro hm
    have hm2 : ({ s with desired_temp := s.desired_meat_temp } : SmokerState).desired_meat_temp ≤
        ({ s with desired_temp := s.desired_meat_temp } : SmokerState).meat_temp := hm
    have key : (if ({ s with desired_temp := s.desired_meat_temp } : SmokerState).desired_meat_temp ≤
          ({ s with desired_temp := s.desired_meat_temp } : SmokerState).meat_temp
        then { ({ s with desired_temp := s.desired_meat_temp } : SmokerState) with
                desired_temp :=
                  ({ s with desired_temp := s.desired_meat_temp } : SmokerState).desired_meat_temp }
        else ({ s with desired_temp := s.desired_meat_temp } : SmokerState)) =
        (if s.desired_meat_temp ≤ s.meat_temp then
          ({ s with desired_temp := s.desired_meat_temp } : SmokerState) else s) := by
      rw [if_pos hm, if_pos hm2]
    simp only [controlHeater]
    rw [key]
  · rw [hchar]; split_ifs <;> simp
  · intro hd; rw [hchar]; split_ifs <;> omega

/-- C7 witness: meat at 195 °F with meat target 190 °F and enclosure target
230 °F. -/
theorem C7_meat_target_convergence_witness :
    ((controlHeater { initState with meat_temp := 195 } 1000).desired_temp =
      if ({ initState with meat_temp := 195 } : SmokerState).desired_meat_temp ≤
          ({ initState with meat_temp := 195 } : SmokerState).meat_temp
      then ({ initState with meat_temp := 195 } : SmokerState).desired_meat_temp
      else ({ initState with meat_temp := 195 } : SmokerState).desired_temp) ∧
    ((controlHeater { initState with meat_temp := 195 } 1000).desired_meat_temp =
      ({ initState with meat_temp := 195 } : SmokerState).desired_meat_temp) ∧
    (({ initState with meat_temp := 195 } : SmokerState).desired_meat_temp ≤
        ({ initState with meat_temp := 195 } : SmokerState).meat_temp →
      controlHeater { initState with meat_temp := 195 } 1000 =
        controlHeater { initState with meat_temp := 195, desired_temp := 190 } 1000) ∧
    ((controlHeater { initState with meat_temp := 195 } 1000).desired_temp =
       ({ initState with meat_temp := 195 } : SmokerState).desired_temp ∨
     (controlHeater { initState with meat_temp := 195 } 1000).desired_temp =
       ({ initState with meat_temp := 195 } : SmokerState).desired_meat_temp) ∧
    (({ initState with meat_temp := 195 } : SmokerState).desired_meat_temp ≤
        ({ initState with meat_temp := 195 } : SmokerState).desired_temp →
      (controlHeater { initState with meat_temp := 195 } 1000).desired_temp ≤
        ({ initState with meat_temp := 195 } : SmokerState).desired_temp) :=
  C7_meat_target_convergence { initState with meat_temp := 195 } 1000

/-- C8: a detected encoder tick (rising CLK edge) adds exactly +2 (DT ≠ CLK)
or −2 (DT = CLK) to whichever target is selected, with no bound applied,
leaving the other target and the selector unchanged; with no tick nothing
changes; a qualifying button press (level low, more than 500 ms since the
last accepted press) toggles the selector between exactly the two values 0
(Enclosure) and 1 (Probe) and never touches the targets. -/
theorem C8_encoder_ticks_and_button (s : UiState) (clk dt : Nat) (btn : Bool)
    (now : Nat) (hcs : s.current_setting = 0 ∨ s.current_setting = 1)
    (hlb : s.last_button_press ≤ now) (hnow : now < UL_MOD) :
    (clk ≠ s.encoder_state_last → clk = 1 → dt ≠ clk →
      (s.current_setting = 0 →
        (handleEncoder s clk dt).desired_temp = s.desired_temp + 2 ∧
        (handleEncoder s clk dt).desired_meat_temp = s.desired_meat_temp) ∧
      (s.current_setting = 1 →
        (handleEncoder s clk dt).desired_meat_temp = s.desired_meat_temp + 2 ∧
        (handleEncoder s clk dt).desired_temp = s.desired_temp) ∧
      (handleEncoder s clk dt).current_setting = s.current_setting) ∧
    (clk ≠ s.encoder_state_last → clk = 1 → dt = clk →
      (s.current_setting = 0 →
        (handleEncoder s clk dt).desired_temp = s.desired_temp - 2 ∧
        (handleEncoder s clk dt).desired_meat_temp = s.desired_meat_temp) ∧
      (s.current_setting = 1 →
        (handleEncoder s clk dt).desired_meat_temp = s.desired_meat_temp - 2 ∧
        (handleEncoder s clk dt).desired_temp = s.desired_temp) ∧
      (handleEncoder s clk dt).current_setting = s.current_setting) ∧
    (¬(clk ≠ s.encoder_state_last ∧ clk = 1) →
      (handleEncoder s clk dt).desired_temp = s.desired_temp ∧
      (handleEncoder s clk dt).desired_meat_temp = s.desired_meat_temp ∧
      (handleEncoder s clk dt).current_setting = s.current_setting) ∧
    (btn = true → button_debounce_time < now - s.last_button_press →
      (handleButton s btn now).current_setting =
        (if s.current_setting = 0 then 1 else 0) ∧
      (handleButton s btn now).current_setting ≠ s.current_setting) ∧
    ((handleButton s btn now).desired_temp = s.desired_temp ∧
     (handleButton s btn now).desired_meat_temp = s.desired_meat_temp) := by
  have hul : ulSub now s.last_button_press = now - s.last_button_press :=
    ulSub_eq_sub hlb hnow
  refine ⟨?_, ?_, ?_, ?_, ?_⟩
  · intro h1 h2 h3
    simp only [handleEncoder]
    rw [if_pos ⟨h1, h2⟩, if_pos h3]
    rcases hcs with hc | hc <;> rw [hc] <;> simp
  · intro h1 h2 h3
    simp only [handleEncoder]
    rw [if_pos ⟨h1, h2⟩, if_neg (by simp [h3])]
    rcases hcs with hc | hc <;> rw [hc] <;> simp
  · intro h
    simp only [handleEncoder]
    rw [if_neg h]
    exact ⟨rfl, rfl, rfl⟩
  · intro hb hd
    simp only [handleButton]
    rw [if_pos ⟨hb, by rw [hul]; exact hd⟩]
    rcases hcs with hc | hc <;> rw [hc] <;> simp
  · simp only [handleButton]
    split_ifs <;> simp

/-- C8 witness: enclosure selected, a clockwise tick, and a qualifying button
press at t = 1000 ms. -/
theorem C8_encoder_ticks_and_button_witness :
    (((⟨0, 0, 0, 230, 190⟩ : UiState).current_setting = 0 ∨
      (⟨0, 0, 0, 230, 190⟩ : UiState).current_setting = 1) ∧
     (⟨0, 0, 0, 230, 190⟩ : UiState).last_button_press ≤ 1000 ∧ 1000 < UL_MOD) ∧
    ((1 ≠ (⟨0, 0, 0, 230, 190⟩ : UiState).encoder_state_last → 1 = 1 → 0 ≠ 1 →
      ((⟨0, 0, 0, 230, 190⟩ : UiState).current_setting = 0 →
        (handleEncoder ⟨0, 0, 0, 230, 190⟩ 1 0).desired_temp =
          (⟨0, 0, 0, 230, 190⟩ : UiState).desired_temp + 2 ∧
        (handleEncoder ⟨0, 0, 0, 230, 190⟩ 1 0).desired_meat_temp =
          (⟨0, 0, 0, 230, 190⟩ : UiState).desired_meat_temp) ∧
      ((⟨0, 0, 0, 230, 190⟩ : UiState).current_setting = 1 →
        (handleEncoder ⟨0, 0, 0, 230, 190⟩ 1 0).desired_meat_temp =
          (⟨0, 0, 0, 230, 190⟩ : UiState).desired_meat_temp + 2 ∧
        (handleEncoder ⟨0, 0, 0, 230, 190⟩ 1 0).desired_temp =
          (⟨0, 0, 0, 230, 190⟩ : UiState).desired_temp) ∧
      (handleEncoder ⟨0, 0, 0, 230, 190⟩ 1 0).current_setting =
        (⟨0, 0, 0, 230, 190⟩ : UiState).current_setting) ∧
     (1 ≠ (⟨0, 0, 0, 230, 190⟩ : UiState).encoder_state_last → 1 = 1 → 0 = 1 →
      ((⟨0, 0, 0, 230, 190⟩ : UiState).current_setting = 0 →
        (handleEncoder ⟨0, 0, 0, 230, 190⟩ 1 0).desired_temp =
          (⟨0, 0, 0, 230, 190⟩ : UiState).desired_temp - 2 ∧
        (handleEncoder ⟨0, 0, 0, 230, 190⟩ 1 0).desired_meat_temp =
          (⟨0, 0, 0, 230, 190⟩ : UiState).desired_meat_temp) ∧
      ((⟨0, 0, 0, 230, 190⟩ : UiState).current_setting = 1 →
        (handleEncoder ⟨0, 0, 0, 230, 190⟩ 1 0).desired_meat_temp =
          (⟨0, 0, 0, 230, 190⟩ : UiState).desired_meat_temp - 2 ∧
        (handleEncoder ⟨0, 0, 0, 230, 190⟩ 1 0).desired_temp =
          (⟨0, 0, 0, 230, 190⟩ : UiState).desired_temp) ∧
      (handleEncoder ⟨0, 0, 0, 230, 190⟩ 1 0).current_setting =
        (⟨0, 0, 0, 230, 190⟩ : UiState).current_setting) ∧
     (¬(1 ≠ (⟨0, 0, 0, 230, 190⟩ : UiState).encoder_state_last ∧ 1 = 1) →
      (handleEncoder ⟨0, 0, 0, 230, 190⟩ 1 0).desired_temp =
        (⟨0, 0, 0, 230, 190⟩ : UiState).desired_temp ∧
      (handleEncoder ⟨0, 0, 0, 230, 190⟩ 1 0).desired_meat_temp =
        (⟨0, 0, 0, 230, 190⟩ : UiState).desired_meat_temp ∧
      (handleEncoder ⟨0, 0, 0, 230, 190⟩ 1 0).current_setting =
        (⟨0, 0, 0, 230, 190⟩ : UiState).current_setting) ∧
     (true = true →
      button_debounce_time < 1000 - (⟨0, 0, 0, 230, 190⟩ : UiState).last_button_press →
      (handleButton ⟨0, 0, 0, 230, 190⟩ true 1000).current_setting =
        (if (⟨0, 0, 0, 230, 190⟩ : UiState).current_setting = 0 then 1 else 0) ∧
      (handleButton ⟨0, 0, 0, 230, 190⟩ true 1000).current_setting ≠
        (⟨0, 0, 0, 230, 190⟩ : UiState).current_setting) ∧
     ((handleButton ⟨0, 0, 0, 230, 190⟩ true 1000).desired_temp =
        (⟨0, 0, 0, 230, 190⟩ : UiState).desired_temp ∧
      (handleButton ⟨0, 0, 0, 230, 190⟩ true 1000).desired_meat_temp =
        (⟨0, 0, 0, 230, 190⟩ : UiState).desired_meat_temp)) :=
  ⟨⟨by decide, by decide, by decide⟩,
   C8_encoder_ticks_and_button ⟨0, 0, 0, 230, 190⟩ 1 0 true 1000
     (by decide) (by decide) (by decide)⟩

/-- If `controlHeater` changes the recorded heater-toggle timestamp, it
records the current time and the dwell guard held. -/
theorem controlHeater_last_change (s : SmokerState) (now : Nat)
    (h : (controlHeater s now).last_heater_toggle_time ≠ s.last_heater_toggle_time) :
    (controlHeater s now).last_heater_toggle_time = now ∧
    HEATER_CYCLE_TIME ≤ ulSub now s.last_heater_toggle_time := by
  simp only [controlHeater] at h ⊢
  split_ifs at h ⊢ with hm h1 h2 h1 h2
  · exact ⟨rfl, h1.2.2⟩
  · exact ⟨rfl, h2.2.2⟩
  · exact absurd rfl h
  · exact ⟨rfl, h1.2.2⟩
  · exact ⟨rfl, h2.2.2⟩
  · exact absurd rfl h

/-- If `controlFan` changes the recorded fan-toggle timestamp, it records the
current time and the dwell guard held. -/
theorem controlFan_last_change (s : SmokerState) (now : Nat)
    (h : (controlFan s now).last_fan_toggle_time ≠ s.last_fan_toggle_time) :
    (controlFan s now).last_fan_toggle_time = now ∧
    FAN_CYCLE_TIME ≤ ulSub now s.last_fan_toggle_time := by
  simp only [controlFan] at h ⊢
  split_ifs at h ⊢ with h1 h2
  · exact ⟨rfl, h1.2.2⟩
  · exact ⟨rfl, h2.2.2⟩
  · exact absurd rfl h

/-- A cycle that changes the recorded heater-toggle timestamp did so through
`controlHeater`, at the cycle time, with the dwell guard satisfied. -/
theorem loopStep_last_heater_change (s : SmokerState) (i : CycleInput)
    (h : (loopStep s i).last_heater_toggle_time ≠ s.last_heater_toggle_time) :
    (loopStep s i).last_heater_toggle_time = i.now ∧
    HEATER_CYCLE_TIME ≤ ulSub i.now s.last_heater_toggle_time := by
  by_cases hr : (readPhase s i).system_on = true ∧ (readPhase s i).error_state = false
  · have e : (loopStep s i).last_heater_toggle_time =
        (controlHeater (readPhase s i) i.now).last_heater_toggle_time := by
      simp only [loopStep]; rw [if_pos hr]; exact controlFan_last_heater _ _
    rw [e] at h ⊢
    have h4 : (controlHeater (readPhase s i) i.now).last_heater_toggle_time ≠
        (readPhase s i).last_heater_toggle_time := by
      rw [readPhase_last_heater]; exact h
    obtain ⟨ha, hb⟩ := controlHeater_last_change (readPhase s i) i.now h4
    rw [readPhase_last_heater] at hb
    exact ⟨ha, hb⟩
  · obtain ⟨_, _, _, _, h5, _, _, _⟩ := loopStep_not_running s i hr
    exact absurd h5 h

/-- A cycle that changes the recorded fan-toggle timestamp did so through
`controlFan`, at the cycle time, with the dwell guard satisfied. -/
theorem loopStep_last_fan_change (s : SmokerState) (i : CycleInput)
    (h : (loopStep s i).last_fan_toggle_time ≠ s.last_fan_toggle_time) :
    (loopStep s i).last_fan_toggle_time = i.now ∧
    FAN_CYCLE_TIME ≤ ulSub i.now s.last_fan_toggle_time := by
  by_cases hr : (readPhase s i).system_on = true ∧ (readPhase s i).error_state = false
  · have e : loopStep s i =
        controlFan (controlHeater (readPhase s i) i.now) i.now := by
      simp only [loopStep]; rw [if_pos hr]
    rw [e] at h ⊢
    have h4 : (controlFan (controlHeater (readPhase s i) i.now) i.now).last_fan_toggle_time ≠
        (controlHeater (readPhase s i) i.now).last_fan_toggle_time := by
      rw [controlHeater_last_fan, readPhase_last_fan]; exact h
    obtain ⟨ha, hb⟩ := controlFan_last_change (controlHeater (readPhase s i) i.now) i.now h4
    rw [controlHeater_last_fan, readPhase_last_fan] at hb
    exact ⟨ha, hb⟩
  · obtain ⟨_, _, _, _, _, h6, _, _⟩ := loopStep_not_running s i hr
    exact absurd h6 h

/-- Times of the heater toggles recorded by `controlHeater` along a run (the
cycles in which `last_heater_toggle_time` changes). -/
def heaterToggleTimes (s : SmokerState) : List CycleInput → List Nat
  | [] => []
  | i :: rest =>
    if (loopStep s i).last_heater_toggle_time ≠ s.last_heater_toggle_time
    then i.now :: heaterToggleTimes (loopStep s i) rest
    else heaterToggleTimes (loopStep s i) rest

/-- Times of the fan toggles recorded by `controlFan` along a run. -/
def fanToggleTimes (s : SmokerState) : List CycleInput → List Nat
  | [] => []
  | i :: rest =>
    if (loopStep s i).last_fan_toggle_time ≠ s.last_fan_toggle_time
    then i.now :: fanToggleTimes (loopStep s i) rest
    else fanToggleTimes (loopStep s i) rest

/-- The cycle times are nondecreasing, start no earlier than `lb`, and stay
below `2^32` (so `millis()` does not wrap during the run). -/
def chainOK : Nat → List CycleInput → Prop
  | _, [] => True
  | lb, i :: rest => lb ≤ i.now ∧ i.now < UL_MOD ∧ chainOK i.now rest

instance chainOK_decidable (lb : Nat) (l : List CycleInput) : Decidable (chainOK lb l) :=
  match l with
  | [] => isTrue trivial
  | i :: rest =>
    have : Decidable (chainOK i.now rest) := chainOK_decidable i.now rest
    inferInstanceAs (Decidable (lb ≤ i.now ∧ i.now < UL_MOD ∧ chainOK i.now rest))

theorem chainOK_mono {lb lb' : Nat} {l : List CycleInput} (hle : lb' ≤ lb)
    (h : chainOK lb l) : chainOK lb' l := by
  cases l with
  | nil => trivial
  | cons i rest => exact ⟨le_trans hle h.1, h.2.1, h.2.2⟩

theorem heaterToggleTimes_lb : ∀ (l : List CycleInput) (s : SmokerState),
    chainOK s.last_heater_toggle_time l →
    ∀ t ∈ heaterToggleTimes s l, s.last_heater_toggle_time + HEATER_CYCLE_TIME ≤ t := by
  intro l
  induction l with
  | nil => intro s _ t ht; simp [heaterToggleTimes] at ht
  | cons i rest ih =>
    intro s hc t ht
    obtain ⟨hlb, hnow, hrest⟩ := hc
    simp only [heaterToggleTimes] at ht
    split_ifs at ht with hch
    · obtain ⟨ha, hb⟩ := loopStep_last_heater_change s i hch
      rw [ulSub_eq_sub hlb hnow] at hb
      rcases List.mem_cons.mp ht with he | ht2
      · omega
      · have h2 := ih (loopStep s i) (by rw [ha]; exact hrest) t ht2
        rw [ha] at h2; omega
    · have ha : (loopStep s i).last_heater_toggle_time = s.last_heater_toggle_time :=
        not_ne_iff.mp hch
      have h2 := ih (loopStep s i) (by rw [ha]; exact chainOK_mono hlb hrest) t ht
      rw [ha] at h2; exact h2

theorem fanToggleTimes_lb : ∀ (l : List CycleInput) (s : SmokerState),
    chainOK s.last_fan_toggle_time l →
    ∀ t ∈ fanToggleTimes s l, s.last_fan_toggle_time + FAN_CYCLE_TIME ≤ t := by
  intro l
  induction l with
  | nil => intro s _ t ht; simp [fanToggleTimes] at ht
  | cons i rest ih =>
    intro s hc t ht
    obtain ⟨hlb, hnow, hrest⟩ := hc
    simp only [fanToggleTimes] at ht
    split_ifs at ht with hch
    · obtain ⟨ha, hb⟩ := loopStep_last_fan_change s i hch
      rw [ulSub_eq_sub hlb hnow] at hb
      rcases List.mem_cons.mp ht with he | ht2
      · omega
      · have h2 := ih (loopStep s i) (by rw [ha]; exact hrest) t ht2
        rw [ha] at h2; omega
    · have ha : (loopStep s i).last_fan_toggle_time = s.last_fan_toggle_time :=
        not_ne_iff.mp hch
      have h2 := ih (loopStep s i) (by rw [ha]; exact chainOK_mono hlb hrest) t ht
      rw [ha] at h2; exact h2

theorem heaterToggleTimes_pairwise : ∀ (l : List CycleInput) (s : SmokerState),
    chainOK s.last_heater_toggle_time l →
    List.Pairwise (fun a b => a + HEATER_CYCLE_TIME ≤ b) (heaterToggleTimes s l) := by
  intro l
  induction l with
  | nil => intro s _; simp [heaterToggleTimes]
  | cons i rest ih =>
    intro s hc
    obtain ⟨hlb, hnow, hrest⟩ := hc
    simp only [heaterToggleTimes]
    split_ifs with hch
    · obtain ⟨ha, _⟩ := loopStep_last_heater_change s i hch
      refine List.Pairwise.cons ?_ (ih (loopStep s i) (by rw [ha]; exact hrest))
      intro t ht
      have h2 := heaterToggleTimes_lb rest (loopStep s i) (by rw [ha]; exact hrest) t ht
      rw [ha] at h2; omega
    · have ha : (loopStep s i).last_heater_toggle_time = s.last_heater_toggle_time :=
        not_ne_iff.mp hch
      exact ih (loopStep s i) (by rw [ha]; exact chainOK_mono hlb hrest)

theorem fanToggleTimes_pairwise : ∀ (l : List CycleInput) (s : SmokerState),
    chainOK s.last_fan_toggle_time l →
    List.Pairwise (fun a b => a + FAN_CYCLE_TIME ≤ b) (fanToggleTimes s l) := by
  intro l
  induction l with
  | nil => intro s _; simp [fanToggleTimes]
  | cons i rest ih =>
    intro s hc
    obtain ⟨hlb, hnow, hrest⟩ := hc
    simp only [fanToggleTimes]
    split_ifs with hch
    · obtain ⟨ha, _⟩ := loopStep_last_fan_change s i hch
      refine List.Pairwise.cons ?_ (ih (loopStep s i) (by rw [ha]; exact hrest))
      intro t ht
      have h2 := fanToggleTimes_lb rest (loopStep s i) (by rw [ha]; exact hrest) t ht
      rw [ha] at h2; omega
    · have ha : (loopStep s i).last_fan_toggle_time = s.last_fan_toggle_time :=
        not_ne_iff.mp hch
      exact ih (loopStep s i) (by rw [ha]; exact chainOK_mono hlb hrest)

/-- C3 counterexample: the claim quantifies over all histories including
forced-off cycles.  From the initial state, the heater output toggles off→on
at t = 100000 ms (controller) and on→off at t = 100100 ms (forced-off branch
when the switch reads off), only 100 ms < 10 s apart. -/
theorem C3_counterexample_output_toggles_within_dwell :
    initState.heater_on = false ∧ initState.heater_pin = false ∧
    (loopStep initState ⟨true, 100, 100, 50, 100000⟩).heater_on = true ∧
    (loopStep initState ⟨true, 100, 100, 50, 100000⟩).heater_pin = true ∧
    (loopStep (loopStep initState ⟨true, 100, 100, 50, 100000⟩)
       ⟨false, 100, 100, 50, 100100⟩).heater_on = false ∧
    (loopStep (loopStep initState ⟨true, 100, 100, 50, 100000⟩)
       ⟨false, 100, 100, 50, 100100⟩).heater_pin = false ∧
    100100 - 100000 < HEATER_CYCLE_TIME := by
  decide

/-- C3 (amended): excluding the forced-off override taken when the system is
off or in Error — which changes the outputs without recording a toggle — any
two controller-recorded toggles of the same actuator are at least the dwell
time apart (heater 10 s, fan 60 s), for every run whose `millis()` values are
nondecreasing, start no earlier than the recorded timestamps, and do not
wrap. -/
theorem C3_controller_toggles_dwell_apart (s : SmokerState) (l : List CycleInput)
    (hh : chainOK s.last_heater_toggle_time l)
    (hf : chainOK s.last_fan_toggle_time l) :
    List.Pairwise (fun a b => a + HEATER_CYCLE_TIME ≤ b) (heaterToggleTimes s l) ∧
    List.Pairwise (fun a b => a + FAN_CYCLE_TIME ≤ b) (fanToggleTimes s l) :=
  ⟨heaterToggleTimes_pairwise l s hh, fanToggleTimes_pairwise l s hf⟩

/-- C3 witness: a run in which the heater toggles on at t = 100000 ms and off
at t = 200000 ms while the fan never toggles. -/
theorem C3_controller_toggles_dwell_apart_witness :
    chainOK initState.last_heater_toggle_time
      [⟨true, 100, 100, 50, 100000⟩, ⟨true, 240, 235, 50, 100100⟩,
       ⟨true, 240, 235, 50, 200000⟩] ∧
    chainOK initState.last_fan_toggle_time
      [⟨true, 100, 100, 50, 100000⟩, ⟨true, 240, 235, 50, 100100⟩,
       ⟨true, 240, 235, 50, 200000⟩] ∧
    (List.Pairwise (fun a b => a + HEATER_CYCLE_TIME ≤ b)
      (heaterToggleTimes initState
        [⟨true, 100, 100, 50, 100000⟩, ⟨true, 240, 235, 50, 100100⟩,
         ⟨true, 240, 235, 50, 200000⟩]) ∧
     List.Pairwise (fun a b => a + FAN_CYCLE_TIME ≤ b)
      (fanToggleTimes initState
        [⟨true, 100, 100, 50, 100000⟩, ⟨true, 240, 235, 50, 100100⟩,
         ⟨true, 240, 235, 50, 200000⟩])) :=
  ⟨by decide, by decide,
   C3_controller_toggles_dwell_apart initState
     [⟨true, 100, 100, 50, 100000⟩, ⟨true, 240, 235, 50, 100100⟩,
      ⟨true, 240, 235, 50, 200000⟩] (by decide) (by decide)⟩

end OpenSmoker
